import Mathlib

/-!
Shallow embedding of `djimaging/processing.py` (ttngu207/canonical-imaging).

The repository declares a relational schema (ProcessingMethod,
ProcessingParamSet, ProcessingTask, Processing with part table
ProcessingOutputFile, MotionCorrection with Block, Segmentation with Mask, ...)
and a single procedural routine, `Processing.make`, which polls for the
external tool's output directory and ingests its file listing.

Python-level behaviour that the routine relies on is modelled explicitly:
  * `pathlib.Path` objects are lists of posix components; calling a method on
    a path resolves the method name against the pathlib API, so a misspelled
    method name yields an `AttributeError` exactly as in CPython;
  * `pathlib.Path(None)` raises `TypeError`;
  * table inserts follow primary-key semantics: inserting a row whose primary
    key is already present is rejected with a duplicate-key error.
-/

/-- Python / storage-engine exceptions that the embedded code can raise. -/
inductive PyError
  | attributeError (name : String)
  | typeError (msg : String)
  | valueError (msg : String)
  | notImplementedError (msg : String)
  | dataJointError (msg : String)
  | duplicateError (table : String)
deriving DecidableEq, Repr

/- ===== pathlib model ===== -/

/-- A `pathlib.Path`: the list of posix path components (no empty components).
Absolute paths are rooted at the filesystem root, so the leading slash is
implicit. -/
structure PyPath where
  components : List String
deriving DecidableEq, Repr

/-- Split a character sequence on the slash separator, dropping empty
components: the parsing performed by `pathlib.PurePosixPath`. The second
argument accumulates the characters of the current component, reversed. -/
def splitComponentsAux : List Char → List Char → List String
  | [], acc => if acc = [] then [] else [String.mk acc.reverse]
  | c :: rest, acc =>
    if c = '/' then
      if acc = [] then splitComponentsAux rest []
      else String.mk acc.reverse :: splitComponentsAux rest []
    else splitComponentsAux rest (c :: acc)

/-- Interleave the slash separator between components: the printing performed
by `PurePosixPath.as_posix` for a relative path. -/
def joinComponents : List String → List Char
  | [] => []
  | [c] => c.toList
  | c :: rest => c.toList ++ '/' :: joinComponents rest

/-- Parse a posix path string into a `PyPath`, as `pathlib.Path(str)` does. -/
def pyPathOfString (s : String) : PyPath :=
  ⟨splitComponentsAux s.data []⟩

/-- Render a relative `PyPath` as a posix string: `Path.as_posix()`. -/
def PyPath.as_posix (p : PyPath) : String :=
  String.mk (joinComponents p.components)

/-- Join two paths: `root / rel` in pathlib. -/
def PyPath.join (root rel : PyPath) : PyPath :=
  ⟨root.components ++ rel.components⟩

/-- Rejoin a stored relative path string with the root directory:
`root / stored` in pathlib. -/
def rejoinWithRoot (root : PyPath) (stored : String) : PyPath :=
  root.join (pyPathOfString stored)

/-- `Path.relative_to(root)`: drops the leading `root` components, raising
`ValueError` when the path does not lie under `root`. -/
def PyPath.relative_to (p root : PyPath) : Except PyError PyPath :=
  if root.components.isPrefixOf p.components then
    Except.ok ⟨p.components.drop root.components.length⟩
  else
    Except.error (PyError.valueError (p.as_posix ++ " does not start with " ++ root.as_posix))

/-- `pathlib.Path(arg)` where `arg` is a string or `None`: constructing a path
from `None` raises `TypeError` in CPython. -/
def pathlibPath : Option String → Except PyError PyPath
  | none => Except.error (PyError.typeError
      "argument should be a str or an os.PathLike object, not NoneType")
  | some s => Except.ok (pyPathOfString s)

/- ===== filesystem model ===== -/

/-- The filesystem visible to the routine: which paths are regular files and
which are directories. -/
structure FileSystem where
  files : List PyPath
  dirs : List PyPath
deriving Repr

def FileSystem.isFile (fs : FileSystem) (p : PyPath) : Bool :=
  fs.files.contains p

def FileSystem.isDir (fs : FileSystem) (p : PyPath) : Bool :=
  fs.dirs.contains p

/-- `Path.glob('*')`: the immediate children of a directory, files and
subdirectories alike (the source comments that this is deliberately
unfiltered). -/
def FileSystem.globStar (fs : FileSystem) (d : PyPath) : List PyPath :=
  (fs.files ++ fs.dirs).filter
    (fun p => d.components.isPrefixOf p.components
      && p.components.length = d.components.length + 1)

/-- Calling a Boolean-returning method on a `pathlib.Path` object by name.
The pathlib API defines `exists`, `is_file` and `is_dir`; any other name is an
`AttributeError`, as attribute lookup on the object fails. -/
def pathBoolMethod (fs : FileSystem) (p : PyPath) (name : String) : Except PyError Bool :=
  if name = "exists" then Except.ok (fs.isFile p || fs.isDir p)
  else if name = "is_file" then Except.ok (fs.isFile p)
  else if name = "is_dir" then Except.ok (fs.isDir p)
  else Except.error (PyError.attributeError name)

/- ===== schema / table rows ===== -/

/-- Primary key of `ProcessingParamSet`: a method name referencing
`ProcessingMethod` plus a numeric parameter-set index. -/
structure ParamSetKey where
  processing_method : String
  paramset_idx : Int
deriving DecidableEq, Repr

/-- Primary key of `ProcessingTask`: the `Scan` primary key (opaque here) plus
the `processing_instance` uuid. -/
structure TaskKey where
  scan : String
  processing_instance : String
deriving DecidableEq, Repr

/-- A `ProcessingTask` row: key plus the referenced parameter set. -/
structure ProcessingTaskRow where
  key : TaskKey
  paramset : ParamSetKey
deriving DecidableEq, Repr

/-- A `Processing` row: task key plus `processing_time` (datetime, modelled as
a tick count). -/
structure ProcessingRow where
  key : TaskKey
  processing_time : Nat
deriving DecidableEq, Repr

/-- A `Processing.ProcessingOutputFile` row: task key plus the `PhysicalFile`
reference. Modelled from the spec: `PhysicalFile` lives in `imaging.py`
(not part of this source tree); its key is a file path stored relative to the
configured root data directory. -/
structure ProcessingOutputFileRow where
  key : TaskKey
  file_path : String
deriving DecidableEq, Repr

/-- A `Segmentation.Mask` row. Primary key: the `Segmentation` key (which
equals the `ProcessingTask` key) plus the `mask` id. The field reference and
the pixel data are non-key attributes (`longblob` arrays modelled as lists;
real-valued weights as rationals). -/
structure MaskRow where
  seg : TaskKey
  mask : Int
  field : Nat
  npix : Option Int
  center_x : Int
  center_y : Int
  xpix : List Int
  ypix : List Int
  weights : List Rat
deriving DecidableEq, Repr

/-- A `MotionCorrection.Block` row. Primary key: the `MotionCorrection` key
(the task key), the `NonRigidMotionCorrection` key extension (the field), and
the `block_id`. Shift arrays and statistics are non-key attributes. -/
structure BlockRow where
  task : TaskKey
  field : Nat
  block_id : Int
  block_y : List Int
  block_x : List Int
  y_shifts : List Rat
  x_shifts : List Rat
  y_std : Rat
  x_std : Rat
deriving DecidableEq, Repr

/-- The stored state: the tables touched by the claims. -/
structure DBState where
  processingTasks : List ProcessingTaskRow
  processingRows : List ProcessingRow
  outputFiles : List ProcessingOutputFileRow
  masks : List MaskRow
  blocks : List BlockRow
deriving DecidableEq, Repr

def emptyDB : DBState :=
  { processingTasks := [], processingRows := [], outputFiles := [], masks := [], blocks := [] }

/- ===== insert operations (primary-key semantics) ===== -/

/-- `Processing.insert1`: rejects a duplicate primary key (the task key). -/
def Processing_insert1 (db : DBState) (row : ProcessingRow) : Except PyError DBState :=
  if db.processingRows.any (fun r => decide (r.key = row.key)) then
    Except.error (PyError.duplicateError "Processing")
  else
    Except.ok { db with processingRows := db.processingRows ++ [row] }

/-- Insert a batch of output-file rows; a duplicate primary key
(task key, file path) rejects the insert. -/
def OutputFile_insert (db : DBState) : List ProcessingOutputFileRow → Except PyError DBState
  | [] => Except.ok db
  | row :: rest =>
    if db.outputFiles.any (fun r => decide (r.key = row.key ∧ r.file_path = row.file_path)) then
      Except.error (PyError.duplicateError "Processing.ProcessingOutputFile")
    else
      OutputFile_insert { db with outputFiles := db.outputFiles ++ [row] } rest

/-- `Segmentation.Mask` insert: the primary key is (segmentation key, mask id),
so two rows of one segmentation can never share a mask id, whatever their
fields. -/
def Segmentation_Mask_insert1 (db : DBState) (row : MaskRow) : Except PyError DBState :=
  if db.masks.any (fun r => decide (r.seg = row.seg ∧ r.mask = row.mask)) then
    Except.error (PyError.duplicateError "Segmentation.Mask")
  else
    Except.ok { db with masks := db.masks ++ [row] }

/-- `MotionCorrection.Block` insert: the primary key is
(task key, field, block id), i.e. block ids are scoped to one
non-rigid motion correction row. -/
def MotionCorrection_Block_insert1 (db : DBState) (row : BlockRow) : Except PyError DBState :=
  if db.blocks.any (fun r =>
      decide (r.task = row.task ∧ r.field = row.field ∧ r.block_id = row.block_id)) then
    Except.error (PyError.duplicateError "MotionCorrection.Block")
  else
    Except.ok { db with blocks := db.blocks ++ [row] }

/- ===== Processing.make ===== -/

/-- The two optional resolver hooks of the `Processing` class. The source
defaults both to returning `None` (the `@optional` template hooks). -/
structure Resolvers where
  get_suite2p_dir : TaskKey → Option String
  get_caiman_dir : TaskKey → Option String

/-- The default hooks `_get_suite2p_dir` / `_get_caiman_dir`, which return
`None`. -/
def defaultResolvers : Resolvers :=
  { get_suite2p_dir := fun _ => none, get_caiman_dir := fun _ => none }

/-- Line 121, `(ProcessingMethod & key).fetch1('processing_method')`: the
query-engine fetch is modelled as resolving the processing method of the
task's parameter set (spec 4.2 step 1); a key with no task row is a fetch
error. -/
def fetchMethod (db : DBState) (key : TaskKey) : Except PyError String :=
  match db.processingTasks.find? (fun r => decide (r.key = key)) with
  | some r => Except.ok r.paramset.processing_method
  | none => Except.error (PyError.dataJointError "fetch1 found no row for key")

/-- Lines 123-128: dispatch on the method string to the matching resolver
hook, wrapping its result in `pathlib.Path`; an unknown method raises
`NotImplementedError`. -/
def resolveDataDir (r : Resolvers) (method : String) (key : TaskKey) : Except PyError PyPath :=
  if method = "suite2p" then pathlibPath (r.get_suite2p_dir key)
  else if method = "caiman" then pathlibPath (r.get_caiman_dir key)
  else Except.error (PyError.notImplementedError ("Unknown method: " ++ method))

/-- The attributes available on the `Processing` class object: the names bound
in its class body plus the relevant members inherited from the table base
class. Note there is no part table named `ScanFile`; the part table is
`ProcessingOutputFile`. -/
def processingClassAttrs : List String :=
  ["definition", "ProcessingOutputFile", "_get_caiman_dir", "_get_suite2p_dir",
   "make", "insert", "insert1", "populate", "fetch", "fetch1"]

/-- Line 136, the stored path of one enumerated file:
`pathlib.Path(f).relative_to(root).as_posix()`. -/
def storedRelativePath (root f : PyPath) : Except PyError String :=
  (f.relative_to root).map PyPath.as_posix

/-- Build the rows of the file-insertion list comprehension of lines 136-137
for the already-`is_file`-filtered enumeration. -/
def buildFileRows (root : PyPath) (key : TaskKey) :
    List PyPath → Except PyError (List ProcessingOutputFileRow)
  | [] => Except.ok []
  | f :: rest => do
    let s ← storedRelativePath root f
    let rows ← buildFileRows root key rest
    Except.ok ({ key := key, file_path := s } :: rows)

/-- `Processing.make` (lines 116-143), translated statement by statement.
Returns the stored state as of completion or as of the raise, paired with the
exception if one was raised.

`rootDataDir` stands for `PhysicalFile._get_root_data_dir()`; modelled from
the spec: `PhysicalFile` is declared in `imaging.py`, outside this source
tree, and the spec describes the value as the configured root data directory.
`now` stands for `datetime.now()`. -/
def Processing_make (r : Resolvers) (rootDataDir : String) (fs : FileSystem)
    (now : Nat) (db : DBState) (key : TaskKey) : DBState × Option PyError :=
  match fetchMethod db key with
  | Except.error e => (db, some e)
  | Except.ok method =>
    match resolveDataDir r method key with
    | Except.error e => (db, some e)
    | Except.ok data_dir =>
      -- line 130: `if data_dir.exist():` — the method called is named
      -- `exist`, resolved against the pathlib API by `pathBoolMethod`.
      match pathBoolMethod fs data_dir "exist" with
      | Except.error e => (db, some e)
      | Except.ok dirExists =>
        if dirExists then
          match Processing_insert1 db { key := key, processing_time := now } with
          | Except.error e => (db, some e)
          | Except.ok db1 =>
            let root := pyPathOfString rootDataDir
            let files := fs.globStar data_dir
            -- line 136: `self.ScanFile.insert([...])` — the attribute chain
            -- is evaluated before the comprehension, and the class has no
            -- attribute `ScanFile`.
            if processingClassAttrs.contains "ScanFile" then
              match buildFileRows root key (files.filter fs.isFile) with
              | Except.error e => (db1, some e)
              | Except.ok rows =>
                match OutputFile_insert db1 rows with
                | Except.error e => (db1, some e)
                | Except.ok db2 => (db2, none)
            else (db1, some (PyError.attributeError "ScanFile"))
        else
          -- lines 138-143: output directory does not exist; exit out.
          (db, none)

/- ===== uniqueness invariants (C8) ===== -/

/-- Mask ids are unique within one segmentation: two mask rows of the same
segmentation with the same mask id are the same row, whatever their fields. -/
def maskIdsUnique (db : DBState) : Prop :=
  ∀ r1 ∈ db.masks, ∀ r2 ∈ db.masks, r1.seg = r2.seg → r1.mask = r2.mask → r1 = r2

/-- Block ids are unique within one non-rigid motion correction row
(task plus field). -/
def blockIdsUnique (db : DBState) : Prop :=
  ∀ r1 ∈ db.blocks, ∀ r2 ∈ db.blocks,
    r1.task = r2.task → r1.field = r2.field → r1.block_id = r2.block_id → r1 = r2

/- ===== helper lemmas ===== -/

theorem isPrefixOf_append_self (l t : List String) : l.isPrefixOf (l ++ t) = true := by
  induction l with
  | nil => simp [List.isPrefixOf]
  | cons a l ih => simp [List.isPrefixOf, ih]

theorem splitComponentsAux_no_slash (l : List Char) :
    ∀ acc : List Char, '/' ∉ l →
      splitComponentsAux l acc =
        if acc.reverse ++ l = [] then [] else [String.mk (acc.reverse ++ l)] := by
  induction l with
  | nil =>
    intro acc _
    by_cases hacc : acc = [] <;> simp [splitComponentsAux, hacc]
  | cons c rest ih =>
    intro acc h
    have hc : c ≠ '/' := fun hceq => h (hceq ▸ List.mem_cons_self _ _)
    have hrest : '/' ∉ rest := fun hm => h (List.mem_cons_of_mem _ hm)
    simp only [splitComponentsAux, if_neg hc]
    rw [ih (c :: acc) hrest]
    simp [List.reverse_cons, List.append_assoc]

theorem splitComponentsAux_append_slash (rest : List Char) (l : List Char) :
    ∀ acc : List Char, '/' ∉ l → acc.reverse ++ l ≠ [] →
      splitComponentsAux (l ++ '/' :: rest) acc =
        String.mk (acc.reverse ++ l) :: splitComponentsAux rest [] := by
  induction l with
  | nil =>
    intro acc _ hne
    have hacc : acc ≠ [] := by simpa using hne
    simp [splitComponentsAux, hacc]
  | cons c l ih =>
    intro acc hnl hne
    have hc : c ≠ '/' := fun hceq => hnl (hceq ▸ List.mem_cons_self _ _)
    have hl : '/' ∉ l := fun hm => hnl (List.mem_cons_of_mem _ hm)
    have step : splitComponentsAux ((c :: l) ++ '/' :: rest) acc
        = splitComponentsAux (l ++ '/' :: rest) (c :: acc) := by
      simp only [List.cons_append, splitComponentsAux, if_neg hc]
      rfl
    rw [step, ih (c :: acc) hl (by simp)]
    simp [List.reverse_cons, List.append_assoc]

theorem string_mk_data (s : String) : String.mk s.data = s := rfl

theorem data_string_mk (l : List Char) : (String.mk l).data = l := rfl

theorem splitComponentsAux_joinComponents (comps : List String)
    (h : ∀ c ∈ comps, c.data ≠ [] ∧ '/' ∉ c.data) :
    splitComponentsAux (joinComponents comps) [] = comps := by
  induction comps with
  | nil => rfl
  | cons c rest ih =>
    have hc := h c (List.mem_cons_self _ _)
    cases rest with
    | nil =>
      show splitComponentsAux c.toList [] = [c]
      rw [splitComponentsAux_no_slash c.toList [] hc.2]
      simp [hc.1, string_mk_data]
    | cons c2 rest2 =>
      show splitComponentsAux (c.toList ++ '/' :: joinComponents (c2 :: rest2)) [] = c :: c2 :: rest2
      rw [splitComponentsAux_append_slash _ c.toList [] hc.2 (by simpa using hc.1)]
      rw [ih (fun x hx => h x (List.mem_cons_of_mem _ hx))]
      simp [string_mk_data]

/- ===== concrete fixtures ===== -/

def key0 : TaskKey := { scan := "scan0", processing_instance := "uuid0" }

/-- A task whose parameter set has method suite2p. -/
def db0 : DBState :=
  { emptyDB with processingTasks :=
      [{ key := key0, paramset := { processing_method := "suite2p", paramset_idx := 0 } }] }

/-- Resolver hooks whose suite2p resolver returns the scenario directory. -/
def r0 : Resolvers :=
  { get_suite2p_dir := fun _ => some "/root_dir/out", get_caiman_dir := fun _ => none }

/-- Scenario filesystem: the resolved directory exists and holds the regular
files F1.npy and F2.npy plus the subdirectory extra. -/
def fs0 : FileSystem :=
  { files := [⟨["root_dir", "out", "F1.npy"]⟩, ⟨["root_dir", "out", "F2.npy"]⟩],
    dirs := [⟨["root_dir", "out"]⟩, ⟨["root_dir", "out", "extra"]⟩] }

/-- A filesystem on which the resolved directory does not exist. -/
def fsEmpty : FileSystem := { files := [], dirs := [] }

/-- A task whose parameter set has method caiman. -/
def db1 : DBState :=
  { emptyDB with processingTasks :=
      [{ key := key0, paramset := { processing_method := "caiman", paramset_idx := 1 } }] }

/-- Resolver hooks whose caiman resolver returns the scenario directory. -/
def r1 : Resolvers :=
  { get_suite2p_dir := fun _ => none, get_caiman_dir := fun _ => some "/root_dir/out" }

/-- A task whose parameter set has the unrecognized method foo. -/
def dbFoo : DBState :=
  { emptyDB with processingTasks :=
      [{ key := key0, paramset := { processing_method := "foo", paramset_idx := 2 } }] }

/-- The suite2p task of `db0` with its Processing row already present. -/
def db6 : DBState :=
  { db0 with processingRows := [{ key := key0, processing_time := 3 }] }

/- ===== behaviour of the translated make ===== -/

/-- Whatever the inputs, the translated `make` leaves the stored state exactly
as it was and raises some exception: every control path for a recognized
method reaches the misspelled `data_dir.exist()` call (or fails earlier while
resolving the directory), and the unrecognized-method path raises
`NotImplementedError`. -/
theorem Processing_make_unchanged_and_raises (r : Resolvers) (rootDataDir : String)
    (fs : FileSystem) (now : Nat) (db : DBState) (key : TaskKey) :
    (Processing_make r rootDataDir fs now db key).1 = db ∧
    (Processing_make r rootDataDir fs now db key).2 ≠ none := by
  unfold Processing_make
  cases hfm : fetchMethod db key with
  | error e => simp
  | ok method =>
    cases hrd : resolveDataDir r method key with
    | error e => simp [hrd]
    | ok d =>
      have hexist : pathBoolMethod fs d "exist"
          = Except.error (PyError.attributeError "exist") := by
        simp [pathBoolMethod]
      simp [hrd, hexist]

/- ===== the claims ===== -/

/-- C1: the spec scenario expects `Processing.make` on a suite2p task whose
resolved directory exists with files F1.npy and F2.npy and subdirectory extra
to insert one Processing row (timestamped now) plus the two output-file rows.
The code instead raises `AttributeError` at line 130 (`data_dir.exist()`;
pathlib defines `exists`, not `exist`) and inserts nothing: the state comes
back unchanged together with the exception. -/
theorem C1_scenario_raises_instead_of_inserting :
    Processing_make r0 "/root_dir" fs0 5 db0 key0
      = (db0, some (PyError.attributeError "exist")) := by decide

/-- C2: a Processing record should exist iff the resolved directory existed at
some invocation. At an invocation where the directory does exist (as the real
pathlib `exists` confirms), the routine still records nothing: after the
invocation no Processing row exists, refuting the directory-existed implies
record-exists direction of the equivalence. -/
theorem C2_record_missing_although_directory_existed :
    pathBoolMethod fs0 (pyPathOfString "/root_dir/out") "exists" = Except.ok true ∧
    (Processing_make r0 "/root_dir" fs0 5 db0 key0).1.processingRows = [] := ⟨rfl, rfl⟩

/-- C3: on a task whose resolved directory does not exist, the spec expects a
silent return with no state change. The translated code does leave the state
unchanged, but it raises `AttributeError` at the `data_dir.exist()` call
instead of returning silently. -/
theorem C3_missing_directory_raises_instead_of_silent_return :
    Processing_make r0 "/root_dir" fsEmpty 5 db0 key0
      = (db0, some (PyError.attributeError "exist")) := by decide

/-- C4: for a task whose parameter set's method is neither suite2p nor caiman,
`make` raises `NotImplementedError` before touching any table: the returned
state is exactly the input state, so no Processing row and no output-file row
is written. -/
theorem C4_unknown_method_raises_before_any_insert (r : Resolvers)
    (rootDataDir : String) (fs : FileSystem) (now : Nat) (db : DBState)
    (key : TaskKey) (m : String)
    (hm : fetchMethod db key = Except.ok m)
    (h1 : m ≠ "suite2p") (h2 : m ≠ "caiman") :
    Processing_make r rootDataDir fs now db key
      = (db, some (PyError.notImplementedError ("Unknown method: " ++ m))) := by
  unfold Processing_make
  rw [hm]
  simp [resolveDataDir, h1, h2]

/-- C4 witness: a concrete task whose parameter set has method foo. -/
theorem C4_witness :
    Processing_make r0 "/root_dir" fs0 5 dbFoo key0
      = (dbFoo, some (PyError.notImplementedError ("Unknown method: " ++ "foo"))) :=
  C4_unknown_method_raises_before_any_insert r0 "/root_dir" fs0 5 dbFoo key0 "foo"
    rfl (by decide) (by decide)

/-- C9: for a task of a recognized method whose resolver returns a path, the
existence check of line 130 invokes the nonexistent method `Path.exist`, so
`make` raises `AttributeError` there, before reaching either the insert branch
or the silent-return branch; the state comes back unchanged, so `make` never
inserts a Processing row and never returns normally for a recognized method. -/
theorem C9_exist_check_always_raises (r : Resolvers) (rootDataDir : String)
    (fs : FileSystem) (now : Nat) (db : DBState) (key : TaskKey) (m s : String)
    (hm : fetchMethod db key = Except.ok m)
    (hms : m = "suite2p" ∨ m = "caiman")
    (hs : m = "suite2p" → r.get_suite2p_dir key = some s)
    (hc : m = "caiman" → r.get_caiman_dir key = some s) :
    Processing_make r rootDataDir fs now db key
      = (db, some (PyError.attributeError "exist")) := by
  unfold Processing_make
  rw [hm]
  rcases hms with h | h <;> subst h
  · simp [resolveDataDir, hs rfl, pathlibPath, pathBoolMethod]
  · simp [resolveDataDir, hc rfl, pathlibPath, pathBoolMethod]

/-- C9 witness: a concrete caiman task whose resolver returns a path. -/
theorem C9_witness :
    Processing_make r1 "/root_dir" fs0 5 db1 key0
      = (db1, some (PyError.attributeError "exist")) :=
  C9_exist_check_always_raises r1 "/root_dir" fs0 5 db1 key0 "caiman" "/root_dir/out"
    rfl (Or.inr rfl) (fun h => absurd h (by decide)) (fun _ => rfl)

/-- C10: with the default resolver hooks, which return None, `make` on a task
of a recognized method raises `TypeError` while constructing
`pathlib.Path(None)`, before the existence check and before any insert; a
resolver returning None is never treated as not-yet-ready. -/
theorem C10_default_resolvers_raise_type_error (rootDataDir : String)
    (fs : FileSystem) (now : Nat) (db : DBState) (key : TaskKey) (m : String)
    (hm : fetchMethod db key = Except.ok m)
    (hms : m = "suite2p" ∨ m = "caiman") :
    Processing_make defaultResolvers rootDataDir fs now db key
      = (db, some (PyError.typeError
          "argument should be a str or an os.PathLike object, not NoneType")) := by
  unfold Processing_make
  rw [hm]
  rcases hms with h | h <;> subst h <;>
    simp [resolveDataDir, defaultResolvers, pathlibPath]

/-- C10 witness: the suite2p task of the scenario under the default hooks. -/
theorem C10_witness :
    Processing_make defaultResolvers "/root_dir" fs0 5 db0 key0
      = (db0, some (PyError.typeError
          "argument should be a str or an os.PathLike object, not NoneType")) :=
  C10_default_resolvers_raise_type_error "/root_dir" fs0 5 db0 key0 "suite2p"
    rfl (Or.inl rfl)

/-- C6 counterexample: re-invoking `make` on the task whose Processing row is
already present (`db6`) is not a no-op in the sense of a completed silent
call: the invocation does not return the unchanged state with no exception. -/
theorem C6_counterexample :
    Processing_make r0 "/root_dir" fs0 7 db6 key0 ≠ (db6, none) := by decide

/-- C6 (amended): re-invoking `make` on a task whose Processing row already
exists leaves the stored state unchanged — no duplicate Processing row can
appear because the routine raises at the misspelled existence check before
reaching any insert — but the call raises an exception rather than completing
as a silent no-op. -/
theorem C6_reinvocation_unchanged_but_raises (r : Resolvers) (rootDataDir : String)
    (fs : FileSystem) (now : Nat) (db : DBState) (key : TaskKey)
    (_hdone : ∃ p ∈ db.processingRows, p.key = key) :
    (Processing_make r rootDataDir fs now db key).1 = db ∧
    (Processing_make r rootDataDir fs now db key).2 ≠ none :=
  Processing_make_unchanged_and_raises r rootDataDir fs now db key

/-- C6 witness: the already-complete suite2p task of `db6`. -/
theorem C6_witness :
    (Processing_make r0 "/root_dir" fs0 7 db6 key0).1 = db6 ∧
    (Processing_make r0 "/root_dir" fs0 7 db6 key0).2 ≠ none :=
  C6_reinvocation_unchanged_but_raises r0 "/root_dir" fs0 7 db6 key0 (by decide)

/-- C7: lines 123-128 resolve the output directory by dispatching on the
task's method string: for suite2p the suite2p hook is applied to the task's
key and its result wrapped in `pathlib.Path`; for caiman the caiman hook;
and each branch consults only its own hook, so replacing the other hook never
changes the resolved directory. -/
theorem C7_method_dispatch (r : Resolvers) (key : TaskKey) :
    resolveDataDir r "suite2p" key = pathlibPath (r.get_suite2p_dir key) ∧
    resolveDataDir r "caiman" key = pathlibPath (r.get_caiman_dir key) ∧
    (∀ g : TaskKey → Option String,
      resolveDataDir { get_suite2p_dir := r.get_suite2p_dir, get_caiman_dir := g }
        "suite2p" key = resolveDataDir r "suite2p" key) ∧
    (∀ g : TaskKey → Option String,
      resolveDataDir { get_suite2p_dir := g, get_caiman_dir := r.get_caiman_dir }
        "caiman" key = resolveDataDir r "caiman" key) :=
  ⟨rfl, rfl, fun _ => rfl, fun _ => rfl⟩

/-- C5: the stored output-file path computed on line 136 —
`relative_to(root)` followed by `as_posix()` — succeeds for every file
strictly under the configured root and yields a relative posix string;
rejoining that stored string with the root (`root / stored`) gives back the
original absolute path. -/
theorem C5_stored_path_roundtrip (root : PyPath) (rest : List String)
    (_hne : rest ≠ [])
    (hwf : ∀ c ∈ rest, c.data ≠ [] ∧ '/' ∉ c.data) :
    ∃ s, storedRelativePath root ⟨root.components ++ rest⟩ = Except.ok s ∧
      rejoinWithRoot root s = ⟨root.components ++ rest⟩ := by
  refine ⟨PyPath.as_posix ⟨rest⟩, ?_, ?_⟩
  · simp [storedRelativePath, PyPath.relative_to, isPrefixOf_append_self, Except.map]
  · simp [rejoinWithRoot, pyPathOfString, PyPath.as_posix, data_string_mk,
      splitComponentsAux_joinComponents rest hwf, PyPath.join]

/-- C5 witness: the scenario file /root_dir/out/F1.npy under root /root_dir. -/
theorem C5_witness :
    ∃ s, storedRelativePath (pyPathOfString "/root_dir")
        ⟨(pyPathOfString "/root_dir").components ++ ["out", "F1.npy"]⟩ = Except.ok s ∧
      rejoinWithRoot (pyPathOfString "/root_dir") s
        = ⟨(pyPathOfString "/root_dir").components ++ ["out", "F1.npy"]⟩ :=
  C5_stored_path_roundtrip (pyPathOfString "/root_dir") ["out", "F1.npy"]
    (by decide) (by decide)

/-- C8: mask ids are unique within one segmentation (the Mask primary key is
the segmentation key plus the mask id, so the scope spans all fields of the
segmentation), block ids are unique within one non-rigid motion correction
row, and a successful insert into either part table preserves both
invariants. -/
theorem C8_scoped_id_uniqueness_preserved (db : DBState) (m : MaskRow) (b : BlockRow)
    (dbm dbb : DBState)
    (hmu : maskIdsUnique db) (hbu : blockIdsUnique db)
    (hm : Segmentation_Mask_insert1 db m = Except.ok dbm)
    (hb : MotionCorrection_Block_insert1 db b = Except.ok dbb) :
    maskIdsUnique dbm ∧ blockIdsUnique dbb := by
  constructor
  · by_cases hany : db.masks.any (fun r => decide (r.seg = m.seg ∧ r.mask = m.mask)) = true
    · unfold Segmentation_Mask_insert1 at hm
      rw [if_pos hany] at hm
      exact absurd hm (by simp)
    · unfold Segmentation_Mask_insert1 at hm
      rw [if_neg hany] at hm
      injection hm with hm
      subst hm
      have hnot : ∀ r ∈ db.masks, ¬(r.seg = m.seg ∧ r.mask = m.mask) := by
        intro r hr hcontra
        exact hany (List.any_eq_true.2 ⟨r, hr, by simpa using hcontra⟩)
      intro r1 h1 r2 h2 hseg hmask
      rcases List.mem_append.1 h1 with h1m | h1s
      · rcases List.mem_append.1 h2 with h2m | h2s
        · exact hmu r1 h1m r2 h2m hseg hmask
        · have h2eq : r2 = m := by simpa using h2s
          subst h2eq
          exact absurd ⟨hseg, hmask⟩ (hnot r1 h1m)
      · have h1eq : r1 = m := by simpa using h1s
        subst h1eq
        rcases List.mem_append.1 h2 with h2m | h2s
        · exact absurd ⟨hseg.symm, hmask.symm⟩ (hnot r2 h2m)
        · have h2eq : r2 = r1 := by simpa using h2s
          exact h2eq.symm
  · by_cases hany : db.blocks.any (fun r =>
        decide (r.task = b.task ∧ r.field = b.field ∧ r.block_id = b.block_id)) = true
    · unfold MotionCorrection_Block_insert1 at hb
      rw [if_pos hany] at hb
      exact absurd hb (by simp)
    · unfold MotionCorrection_Block_insert1 at hb
      rw [if_neg hany] at hb
      injection hb with hb
      subst hb
      have hnot : ∀ r ∈ db.blocks,
          ¬(r.task = b.task ∧ r.field = b.field ∧ r.block_id = b.block_id) := by
        intro r hr hcontra
        exact hany (List.any_eq_true.2 ⟨r, hr, by simpa using hcontra⟩)
      intro r1 h1 r2 h2 htask hfield hblock
      rcases List.mem_append.1 h1 with h1m | h1s
      · rcases List.mem_append.1 h2 with h2m | h2s
        · exact hbu r1 h1m r2 h2m htask hfield hblock
        · have h2eq : r2 = b := by simpa using h2s
          subst h2eq
          exact absurd ⟨htask, hfield, hblock⟩ (hnot r1 h1m)
      · have h1eq : r1 = b := by simpa using h1s
        subst h1eq
        rcases List.mem_append.1 h2 with h2m | h2s
        · exact absurd ⟨htask.symm, hfield.symm, hblock.symm⟩ (hnot r2 h2m)
        · have h2eq : r2 = r1 := by simpa using h2s
          exact h2eq.symm

/-- A concrete mask row for the C8 witness. -/
def m0 : MaskRow :=
  { seg := key0, mask := 1, field := 0, npix := some 4, center_x := 2, center_y := 3,
    xpix := [0, 1], ypix := [0, 1], weights := [1, 1] }

/-- A concrete block row for the C8 witness. -/
def b0 : BlockRow :=
  { task := key0, field := 0, block_id := 1, block_y := [0, 16], block_x := [0, 16],
    y_shifts := [0], x_shifts := [0], y_std := 0, x_std := 0 }

def dbm0 : DBState := { emptyDB with masks := [m0] }

def dbb0 : DBState := { emptyDB with blocks := [b0] }

/-- C8 witness: inserting one mask row and one block row into the empty
state preserves the uniqueness invariants. -/
theorem C8_witness : maskIdsUnique dbm0 ∧ blockIdsUnique dbb0 :=
  C8_scoped_id_uniqueness_preserved emptyDB m0 b0 dbm0 dbb0
    (by simp [maskIdsUnique, emptyDB]) (by simp [blockIdsUnique, emptyDB]) rfl rfl
